import Mathlib

/-!
# Verification of the gas-supply optimization module

Shallow embedding of `src/optimization.py` (functions `get_storage_capacity`
and `run_scenario`): the hourly time index, the demand/supply time-series
construction with regime switches, the MILP constraint rules and objective,
and the input-echo table.  Timestamps are represented as whole hours since
2022-01-01T00:00 (the scenario start); exact rationals stand in for the
floating-point reals of the source.
-/

namespace EUEnergy

/-- Hours per year, `periods_per_year = 8760` in `run_scenario`. -/
def periods_per_year : ℕ := 8760

/-- Source: `number_periods = periods_per_year * 1.5 = 13140.0` in `run_scenario`,
used as the (integral) number of hourly periods of the horizon. -/
def number_periods : ℕ := 13140

/-- Source: `time_index = pd.date_range("2022-01-01", periods=number_periods, freq="H")`:
hourly timestamps represented as hour offsets from 2022-01-01T00:00. -/
def time_index : List ℕ := List.range number_periods

/-- Source: `timeSteps = np.arange(len(domDem) + 1)`: model indices 0..number_periods,
the last one being the terminal "virtual" index. -/
def timeSteps : List ℕ := List.range (number_periods + 1)

/-- Source: `timeSteps[-1]`, the terminal index of the model. -/
def terminalStep : ℕ := number_periods

/-- Inputs of `run_scenario` (its keyword parameters), with the three cutover
dates expressed as hour offsets from the scenario start, and the normalized
volatile shape read from `ts_normalized.csv` carried as data. -/
structure ScenarioInputs where
  total_import : ℚ
  total_production : ℚ
  total_import_russia : ℚ
  total_domestic_demand : ℚ
  total_ghd_demand : ℚ
  total_electricity_demand : ℚ
  total_industry_demand : ℚ
  total_exports_and_other : ℚ
  red_dom_dem : ℚ
  red_elec_dem : ℚ
  red_ghd_dem : ℚ
  red_ind_dem : ℚ
  red_exp_dem : ℚ
  import_stop_hour : ℕ
  demand_reduction_hour : ℕ
  lng_increase_hour : ℕ
  lng_add_import : ℚ
  russ_share : ℚ
  use_soc_slack : Bool
  ts_vol_raw : List ℚ

/-- Source: `h1, h2 = np.split(ts_vol, [int(0.5 * periods_per_year)]);
ts_vol = np.concatenate((ts_vol, h1))`: the volatile shape extended to the
1.5-year horizon by appending its own first half-year. -/
def ts_vol_ext (raw : List ℚ) : List ℚ := raw ++ raw.take (periods_per_year / 2)

/-- Value of the extended volatile shape at hour `t` (0 outside the array). -/
def tsVol (raw : List ℚ) (t : ℕ) : ℚ := (ts_vol_ext raw).getD t 0

/-- Source: `ts_const = np.ones_like(ts_vol) * 1 / periods_per_year`: the constant
shape value, `1/8760` at every hour. -/
def tsConst : ℚ := 1 / (periods_per_year : ℚ)

/-- Source: `domDem = pd.Series(ts_vol * total_domestic_demand, ...)` before the
demand reduction is applied. -/
def domDemBase (I : ScenarioInputs) (t : ℕ) : ℚ :=
  tsVol I.ts_vol_raw t * I.total_domestic_demand

/-- Source: `ghdDem = pd.Series(ts_const * total_ghd_demand, ...)` before reduction. -/
def ghdDemBase (I : ScenarioInputs) (_t : ℕ) : ℚ := tsConst * I.total_ghd_demand

/-- Source: `exp_n_oth = pd.Series(ts_const * total_exports_and_other, ...)` before
reduction. -/
def expAndOtherBase (I : ScenarioInputs) (_t : ℕ) : ℚ :=
  tsConst * I.total_exports_and_other

/-- Source: `elecDem = elecDem_vol + elecDem_const` with the 30%/70% volatile/constant
split, before reduction. -/
def elecDemBase (I : ScenarioInputs) (t : ℕ) : ℚ :=
  tsVol I.ts_vol_raw t * (I.total_electricity_demand * (3 / 10))
    + tsConst * (I.total_electricity_demand * (7 / 10))

/-- Source: `indDem = indDem_vol + indDem_const` with the 30%/70% volatile/constant
split, before reduction. -/
def indDemBase (I : ScenarioInputs) (t : ℕ) : ℚ :=
  tsVol I.ts_vol_raw t * (I.total_industry_demand * (3 / 10))
    + tsConst * (I.total_industry_demand * (7 / 10))

/-- Source: `red_func(demand, red) = demand * (1 - red)`. -/
def red_func (demand red : ℚ) : ℚ := demand * (1 - red)

/-- Final domestic demand series: the baseline, with values at hours strictly
after `demand_reduction_date` replaced by the reduced values
(`domDem[time_index_demand_red] = domDem_red[time_index_demand_red]`). -/
def domDemVal (I : ScenarioInputs) (t : ℕ) : ℚ :=
  if I.demand_reduction_hour < t then red_func (domDemBase I t) I.red_dom_dem
  else domDemBase I t

/-- Final commercial/public (ghd) demand series after the regime switch. -/
def ghdDemVal (I : ScenarioInputs) (t : ℕ) : ℚ :=
  if I.demand_reduction_hour < t then red_func (ghdDemBase I t) I.red_ghd_dem
  else ghdDemBase I t

/-- Final exports-and-other demand series after the regime switch. -/
def expAndOtherVal (I : ScenarioInputs) (t : ℕ) : ℚ :=
  if I.demand_reduction_hour < t then red_func (expAndOtherBase I t) I.red_exp_dem
  else expAndOtherBase I t

/-- Final electricity demand series after the regime switch. -/
def elecDemVal (I : ScenarioInputs) (t : ℕ) : ℚ :=
  if I.demand_reduction_hour < t then red_func (elecDemBase I t) I.red_elec_dem
  else elecDemBase I t

/-- Final industry demand series after the regime switch. -/
def indDemVal (I : ScenarioInputs) (t : ℕ) : ℚ :=
  if I.demand_reduction_hour < t then red_func (indDemBase I t) I.red_ind_dem
  else indDemBase I t

/-- Source: `lng_base_import = 876` (LNG import 2021, TWh/a). -/
def lng_base_import : ℚ := 876

/-- Source: `non_russian_pipeline_import_and_domestic_production
= total_import + total_production - total_import_russia - lng_base_import`. -/
def nonRussPipe (I : ScenarioInputs) : ℚ :=
  I.total_import + I.total_production - I.total_import_russia - lng_base_import

/-- Pipeline import series: the unreduced value, with hours strictly after
`import_stop_date` replaced by the reduced value
(`pipeImp[time_index_import_red] = pipeImp_red[time_index_import_red]`). -/
def pipeImpVal (I : ScenarioInputs) (t : ℕ) : ℚ :=
  if I.import_stop_hour < t then
    tsConst * (I.russ_share * I.total_import_russia + nonRussPipe I)
  else
    tsConst * (I.total_import_russia + nonRussPipe I)

/-- LNG import series: the base value, with hours strictly after
`lng_increase_date` replaced by the increased value. -/
def lngImpVal (I : ScenarioInputs) (t : ℕ) : ℚ :=
  if I.lng_increase_hour < t then tsConst * (I.lng_add_import + lng_base_import)
  else tsConst * lng_base_import

/-- A pandas Series as built in `run_scenario`: the shared `time_index`
zipped with the value at each timestamp. -/
def mkSeries (f : ℕ → ℚ) : List (ℕ × ℚ) := time_index.map (fun t => (t, f t))

/-- An assignment of values to the Pyomo decision variables: one rational per
time index for the continuous variables, one rational for each binary. -/
structure Assignment where
  Soc : ℕ → ℚ
  Soc_slack : ℕ → ℚ
  expAndOtherServed : ℕ → ℚ
  domDemServed : ℕ → ℚ
  elecDemServed : ℕ → ℚ
  indDemServed : ℕ → ℚ
  ghdDemServed : ℕ → ℚ
  lngServed : ℕ → ℚ
  pipeServed : ℕ → ℚ
  NegOffset : ℚ
  expAndOtherIsUnserved : ℚ
  domDemIsUnserved : ℚ
  elecDemIsUnserved : ℚ
  indDemIsUnserved : ℚ
  ghdDemIsUnserved : ℚ

/-- A value of a `pyomo.Binary` variable. -/
def isBinary (x : ℚ) : Prop := x = 0 ∨ x = 1

/-- Source: `storCap = 1100` TWh, the maximum storage capacity. -/
def storCap : ℚ := 1100

/-- Rule `Constr_Soc_rule`: for `t < timeSteps[-1]` the state-of-charge balance
equality, otherwise `pyomo.Constraint.Skip` (no constraint, `none`). -/
def Constr_Soc_rule (a : Assignment) (t : ℕ) : Option Prop :=
  if t < terminalStep then
    some (a.Soc (t + 1) - a.Soc_slack (t + 1)
      = a.Soc t - a.domDemServed t - a.elecDemServed t - a.indDemServed t
        - a.ghdDemServed t + a.pipeServed t + a.lngServed t
        - a.expAndOtherServed t)
  else none

/-- Rule `Constr_ExpAndOtherIsUnserved_rule`: total shortfall over the non-terminal
hours is at most total demand times the binary indicator. -/
def Constr_ExpAndOtherIsUnserved_rule (I : ScenarioInputs) (a : Assignment) : Prop :=
  (∑ t in Finset.range number_periods, (expAndOtherVal I t - a.expAndOtherServed t))
    ≤ (∑ t in Finset.range number_periods, expAndOtherVal I t) * a.expAndOtherIsUnserved

/-- Rule `Constr_DomDemIsUnserved_rule`. -/
def Constr_DomDemIsUnserved_rule (I : ScenarioInputs) (a : Assignment) : Prop :=
  (∑ t in Finset.range number_periods, (domDemVal I t - a.domDemServed t))
    ≤ (∑ t in Finset.range number_periods, domDemVal I t) * a.domDemIsUnserved

/-- Rule `Constr_GhdDemIsUnserved_rule`. -/
def Constr_GhdDemIsUnserved_rule (I : ScenarioInputs) (a : Assignment) : Prop :=
  (∑ t in Finset.range number_periods, (ghdDemVal I t - a.ghdDemServed t))
    ≤ (∑ t in Finset.range number_periods, ghdDemVal I t) * a.ghdDemIsUnserved

/-- Rule `Constr_ElecDemIsUnserved_rule`. -/
def Constr_ElecDemIsUnserved_rule (I : ScenarioInputs) (a : Assignment) : Prop :=
  (∑ t in Finset.range number_periods, (elecDemVal I t - a.elecDemServed t))
    ≤ (∑ t in Finset.range number_periods, elecDemVal I t) * a.elecDemIsUnserved

/-- Rule `Constr_IndDemIsUnserved_rule`. -/
def Constr_IndDemIsUnserved_rule (I : ScenarioInputs) (a : Assignment) : Prop :=
  (∑ t in Finset.range number_periods, (indDemVal I t - a.indDemServed t))
    ≤ (∑ t in Finset.range number_periods, indDemVal I t) * a.indDemIsUnserved

/-- Objective `Objective_rule` of the model, parametric in the hourly discount factor
`fac` (in the source, `fac = (1/1.06) ** (1/8760)`), translated term by term:
storage reward over all time steps, `0 * NegOffset`, discounted slack, and
per stream `weight * (0 * isUnserved + discounted shortfall)` with weights
1.0, 2.5, 2.5, 2, 1.5 for exports/other, domestic, ghd, electricity,
industry. -/
def Objective_rule (I : ScenarioInputs) (fac : ℚ) (a : Assignment) : ℚ :=
  (-(1 : ℚ) / 2) / (number_periods : ℚ)
      * (∑ t in Finset.range (number_periods + 1), a.Soc t) / storCap
    + 0 * a.NegOffset
    + 1 * (∑ t in Finset.range number_periods, fac ^ t * a.Soc_slack t)
    + 1 * (0 * a.expAndOtherIsUnserved
        + ∑ t in Finset.range number_periods,
            fac ^ t * (expAndOtherVal I t - a.expAndOtherServed t))
    + 5 / 2 * (0 * a.domDemIsUnserved
        + ∑ t in Finset.range number_periods,
            fac ^ t * (domDemVal I t - a.domDemServed t))
    + 5 / 2 * (0 * a.ghdDemIsUnserved
        + ∑ t in Finset.range number_periods,
            fac ^ t * (ghdDemVal I t - a.ghdDemServed t))
    + 2 * (0 * a.elecDemIsUnserved
        + ∑ t in Finset.range number_periods,
            fac ^ t * (elecDemVal I t - a.elecDemServed t))
    + 3 / 2 * (0 * a.indDemIsUnserved
        + ∑ t in Finset.range number_periods,
            fac ^ t * (indDemVal I t - a.indDemServed t))

/-- The objective as the specification states it: storage-average reward,
discounted slack with weight 1, discounted shortfalls weighted 1.0 / 2.5 /
2.5 / 2.0 / 1.5, and no binary terms at all. -/
def Objective_stated (I : ScenarioInputs) (fac : ℚ) (a : Assignment) : ℚ :=
  (-(1 : ℚ) / 2) / (number_periods : ℚ)
      * (∑ t in Finset.range (number_periods + 1), a.Soc t) / storCap
    + (∑ t in Finset.range number_periods, fac ^ t * a.Soc_slack t)
    + 1 * (∑ t in Finset.range number_periods,
        fac ^ t * (expAndOtherVal I t - a.expAndOtherServed t))
    + 5 / 2 * (∑ t in Finset.range number_periods,
        fac ^ t * (domDemVal I t - a.domDemServed t))
    + 5 / 2 * (∑ t in Finset.range number_periods,
        fac ^ t * (ghdDemVal I t - a.ghdDemServed t))
    + 2 * (∑ t in Finset.range number_periods,
        fac ^ t * (elecDemVal I t - a.elecDemServed t))
    + 3 / 2 * (∑ t in Finset.range number_periods,
        fac ^ t * (indDemVal I t - a.indDemServed t))

/-- A row of the daily storage table `storage_data_5a.xlsx`:
`gasDayStartedOn` kept as its string rendering, `gasInStorage` in TWh. -/
structure StorageRow where
  gasDayStartedOn : String
  gasInStorage : ℚ

/-- Does `needle` occur at the head of `hay`? -/
def charsLeadMatch : List Char → List Char → Bool
  | [], _ => true
  | _ :: _, [] => false
  | c :: cs, d :: ds => c = d && charsLeadMatch cs ds

/-- Does `needle` occur anywhere inside `hay`? -/
def charsHasSub (needle : List Char) : List Char → Bool
  | [] => needle.isEmpty
  | d :: ds => charsLeadMatch needle (d :: ds) || charsHasSub needle ds

/-- Test `str(year) in str(x)` with `year = 2022`: substring test on the string
rendering of `gasDayStartedOn`. -/
def strContains2022 (s : String) : Bool := charsHasSub "2022".toList s.toList

/-- Lexicographic code-point order on character lists, the order pandas uses
to sort string values. -/
def charListLe : List Char → List Char → Bool
  | [], _ => true
  | _ :: _, [] => false
  | c :: cs, d :: ds =>
    c.toNat < d.toNat || (c.toNat = d.toNat && charListLe cs ds)

/-- Rows of the storage table matching 2022, sorted by `gasDayStartedOn`
(`df_storage.loc[bool_year, :]` then `sort_values("gasDayStartedOn")`). -/
def sorted2022 (df : List StorageRow) : List StorageRow :=
  (df.filter (fun r => strContains2022 r.gasDayStartedOn)).insertionSort
    (fun a b => charListLe a.gasDayStartedOn.toList b.gasDayStartedOn.toList)

/-- Loader `get_storage_capacity`: capacity 1100 TWh and the daily 2022
state-of-charge values each repeated 24 times
(`soc_max_hour = soc_max_hour + 24 * hour_val` in a loop). -/
def get_storage_capacity (df : List StorageRow) : ℚ × List ℚ :=
  (storCap, (sorted2022 df).flatMap (fun r => List.replicate 24 r.gasInStorage))

/-- The loader as the specification describes it (for comparison with
`get_storage_capacity`): fails — here `none` — whenever the source table has
no rows matching the target year, otherwise the same result. -/
def get_storage_capacity_stated (df : List StorageRow) : Option (ℚ × List ℚ) :=
  if (df.filter (fun r => strContains2022 r.gasDayStartedOn)).isEmpty then none
  else some (get_storage_capacity df)

/-- The row labels written into `input_data` by `run_scenario`, in source
order (each `input_data.loc[key, value_col] = ...` line). -/
def input_data_keys : List String :=
  ["total_import", "total_production", "total_import_russia",
   "total_domestic_demand", "total_ghd_demand", "total_electricity_demand",
   "total_industry_demand", "total_exports_and_other",
   "red_dom_dem", "red_elec_dem", "red_ghd_dem", "red_ind_dem", "red_exp_dem",
   "import_stop_date", "demand_reduction_date", "lng_increase_date",
   "lng_base_import", "lng_add_import", "russ_share", "storCap"]

/-- The names of the parameters of `run_scenario`, in signature order. -/
def run_scenario_param_names : List String :=
  ["total_import", "total_production", "total_import_russia",
   "total_domestic_demand", "total_ghd_demand", "total_electricity_demand",
   "total_industry_demand", "total_exports_and_other",
   "red_dom_dem", "red_elec_dem", "red_ghd_dem", "red_ind_dem", "red_exp_dem",
   "import_stop_date", "demand_reduction_date", "lng_increase_date",
   "lng_add_import", "russ_share", "use_soc_slack"]

/-- The default arguments of `run_scenario` (dates as hour offsets from
2022-01-01T00:00: 2022-04-16 is hour 2520, 2022-03-16 is hour 1776,
2022-05-01 is hour 2880), with a uniform normalized volatile shape standing
in for the CSV data. -/
def sampleInputs : ScenarioInputs where
  total_import := 4190
  total_production := 608
  total_import_russia := 1752
  total_domestic_demand := 926
  total_ghd_demand := 4205 / 10
  total_electricity_demand := 151583 / 100
  total_industry_demand := 111088 / 100
  total_exports_and_other := 988
  red_dom_dem := 13 / 100
  red_elec_dem := 20 / 100
  red_ghd_dem := 8 / 100
  red_ind_dem := 8 / 100
  red_exp_dem := 0
  import_stop_hour := 2520
  demand_reduction_hour := 1776
  lng_increase_hour := 2880
  lng_add_import := 965
  russ_share := 0
  use_soc_slack := false
  ts_vol_raw := List.replicate 8760 (1 / 8760)

/-- The all-zero variable assignment. -/
def zeroAssign : Assignment where
  Soc := fun _ => 0
  Soc_slack := fun _ => 0
  expAndOtherServed := fun _ => 0
  domDemServed := fun _ => 0
  elecDemServed := fun _ => 0
  indDemServed := fun _ => 0
  ghdDemServed := fun _ => 0
  lngServed := fun _ => 0
  pipeServed := fun _ => 0
  NegOffset := 0
  expAndOtherIsUnserved := 0
  domDemIsUnserved := 0
  elecDemIsUnserved := 0
  indDemIsUnserved := 0
  ghdDemIsUnserved := 0

/-- Inputs with the import stop at the scenario start (scenario C). -/
def importStopAtStart : ScenarioInputs := { sampleInputs with import_stop_hour := 0 }

/-- Inputs with a domestic reduction fraction above 1 and a unit shape. -/
def overReducedInputs : ScenarioInputs :=
  { sampleInputs with
    red_dom_dem := 2, total_domestic_demand := 1,
    demand_reduction_hour := 0, ts_vol_raw := List.replicate 8760 1 }

/-- Inputs whose commercial/public series is the constant 1 at every hour
(annual total 8760 with the constant shape, no reduction). -/
def ghdUnitInputs : ScenarioInputs :=
  { sampleInputs with
    total_ghd_demand := 8760, red_ghd_dem := 0,
    demand_reduction_hour := number_periods }

/-- The all-zero assignment with the ghd indicator set to 1. -/
def unservedAssign : Assignment := { zeroAssign with ghdDemIsUnserved := 1 }

/-- An assignment serving one unit of ghd demand at every hour. -/
def servedAssign : Assignment :=
  { zeroAssign with ghdDemServed := fun _ => 1, ghdDemIsUnserved := 1 }

/-- A two-day storage table for 2022, deliberately out of order. -/
def storageTable : List StorageRow :=
  [⟨"2022-01-02", 600⟩, ⟨"2022-01-01", 500⟩]

/- ## Theorems -/

theorem mkSeries_fst (f : ℕ → ℚ) : (mkSeries f).map Prod.fst = time_index := by
  rw [mkSeries, List.map_map]
  exact List.map_id _

/-- C1 (amended): the hourly time index contains exactly 13,140 timestamps
(1.5 × 8760 = 13,140, not 12,960), starts at 2022-01-01T00:00 (hour offset
0), advances by exactly one hour at each position, and every demand and
supply series of the scenario is indexed by this same sequence. -/
theorem hourly_index_spec :
    time_index.length = 13140 ∧
    time_index.getD 0 0 = 0 ∧
    (∀ i, i + 1 < time_index.length →
      time_index.getD (i + 1) 0 = time_index.getD i 0 + 1) ∧
    (∀ I : ScenarioInputs,
      (mkSeries (domDemVal I)).map Prod.fst = time_index ∧
      (mkSeries (ghdDemVal I)).map Prod.fst = time_index ∧
      (mkSeries (expAndOtherVal I)).map Prod.fst = time_index ∧
      (mkSeries (elecDemVal I)).map Prod.fst = time_index ∧
      (mkSeries (indDemVal I)).map Prod.fst = time_index ∧
      (mkSeries (pipeImpVal I)).map Prod.fst = time_index ∧
      (mkSeries (lngImpVal I)).map Prod.fst = time_index) := by
  have hlen : time_index.length = 13140 := by
    show (List.range number_periods).length = 13140
    rw [List.length_range]
    rfl
  refine ⟨hlen, ?_, ?_, ?_⟩
  · show (List.range number_periods).getD 0 0 = 0
    rw [List.getD_eq_getElem?_getD, List.getElem?_range (by decide)]
    rfl
  · intro i hi
    rw [hlen] at hi
    have h1 : i + 1 < number_periods := hi
    have h0 : i < number_periods := by omega
    show (List.range number_periods).getD (i + 1) 0
      = (List.range number_periods).getD i 0 + 1
    rw [List.getD_eq_getElem?_getD, List.getD_eq_getElem?_getD,
      List.getElem?_range h1, List.getElem?_range h0]
    rfl
  · intro I
    exact ⟨mkSeries_fst _, mkSeries_fst _, mkSeries_fst _, mkSeries_fst _,
      mkSeries_fst _, mkSeries_fst _, mkSeries_fst _⟩

/-- C1 fails as stated: the index length is 13,140, not the claimed 12,960
(the spec's own parenthetical 1.5 × 8760 equals 13,140). -/
theorem hourly_index_not_12960 : time_index.length ≠ 12960 := by
  show (List.range number_periods).length ≠ 12960
  rw [List.length_range]
  decide

/-- Witness for `hourly_index_spec` at position 0 and the domestic series. -/
theorem hourly_index_spec_witness :
    time_index.getD 1 0 = time_index.getD 0 0 + 1 ∧
    (mkSeries (domDemVal sampleInputs)).map Prod.fst = time_index := by
  constructor
  · exact hourly_index_spec.2.2.1 0 (by have h := hourly_index_spec.1; omega)
  · exact (hourly_index_spec.2.2.2 sampleInputs).1

/-- C7: the volatile shape, of native length 8760, is extended to the
1.5-year horizon by concatenating its own first half-year onto its end, so
the extension has length 13,140 and for every hour 8760 ≤ t < 13140 the
shape value at t equals the shape value at t − 8760. -/
theorem ts_vol_wraparound (raw : List ℚ) (hlen : raw.length = periods_per_year) :
    (ts_vol_ext raw).length = number_periods ∧
    ∀ t, periods_per_year ≤ t → t < number_periods →
      tsVol raw t = tsVol raw (t - periods_per_year) := by
  have hlen' : raw.length = 8760 := by rw [hlen]; rfl
  constructor
  · simp only [ts_vol_ext, List.length_append, List.length_take, hlen',
      periods_per_year, number_periods]
    omega
  · intro t h1 h2
    rw [periods_per_year] at h1
    rw [number_periods] at h2
    rw [tsVol, tsVol, ts_vol_ext, periods_per_year]
    have htake : (8760 : ℕ) / 2 = 4380 := by norm_num
    rw [htake, List.getD_eq_getElem?_getD, List.getD_eq_getElem?_getD,
      List.getElem?_append_right (by omega : raw.length ≤ t), hlen',
      List.getElem?_take, if_pos (by omega : t - 8760 < 4380),
      List.getElem?_append_left (by omega : t - 8760 < raw.length)]

/-- Witness for `ts_vol_wraparound` on a constant shape at t = 8760. -/
theorem ts_vol_wraparound_witness :
    (List.replicate 8760 (0 : ℚ)).length = periods_per_year ∧
    tsVol (List.replicate 8760 (0 : ℚ)) 8760 = tsVol (List.replicate 8760 (0 : ℚ)) 0 := by
  have h := (ts_vol_wraparound (List.replicate 8760 (0 : ℚ))
      (by rw [List.length_replicate]; rfl)).2 8760 (by decide) (by decide)
  have hz : (8760 : ℕ) - periods_per_year = 0 := by decide
  rw [hz] at h
  exact ⟨by rw [List.length_replicate]; rfl, h⟩

/-- C5: for each of the five demand streams, every hour strictly before
`demand_reduction_date` carries the unreduced baseline, and every hour
strictly after it carries baseline × (1 − reduction fraction). -/
theorem demand_regime_switch (I : ScenarioInputs) (t : ℕ) :
    (t < I.demand_reduction_hour →
      domDemVal I t = domDemBase I t ∧ ghdDemVal I t = ghdDemBase I t ∧
      elecDemVal I t = elecDemBase I t ∧ indDemVal I t = indDemBase I t ∧
      expAndOtherVal I t = expAndOtherBase I t) ∧
    (I.demand_reduction_hour < t →
      domDemVal I t = domDemBase I t * (1 - I.red_dom_dem) ∧
      ghdDemVal I t = ghdDemBase I t * (1 - I.red_ghd_dem) ∧
      elecDemVal I t = elecDemBase I t * (1 - I.red_elec_dem) ∧
      indDemVal I t = indDemBase I t * (1 - I.red_ind_dem) ∧
      expAndOtherVal I t = expAndOtherBase I t * (1 - I.red_exp_dem)) := by
  constructor
  · intro h
    have hc : ¬ I.demand_reduction_hour < t := by omega
    simp [domDemVal, ghdDemVal, elecDemVal, indDemVal, expAndOtherVal, hc]
  · intro h
    simp [domDemVal, ghdDemVal, elecDemVal, indDemVal, expAndOtherVal, h, red_func]

/-- Witness for `demand_regime_switch` before (t = 5) and after (t = 2000)
the default cutover hour 1776. -/
theorem demand_regime_switch_witness :
    (5 < sampleInputs.demand_reduction_hour ∧
      domDemVal sampleInputs 5 = domDemBase sampleInputs 5) ∧
    (sampleInputs.demand_reduction_hour < 2000 ∧
      domDemVal sampleInputs 2000
        = domDemBase sampleInputs 2000 * (1 - sampleInputs.red_dom_dem)) :=
  ⟨⟨by norm_num [sampleInputs],
    ((demand_regime_switch sampleInputs 5).1 (by norm_num [sampleInputs])).1⟩,
   ⟨by norm_num [sampleInputs],
    ((demand_regime_switch sampleInputs 2000).2 (by norm_num [sampleInputs])).1⟩⟩

/-- C6 fails as stated: with `import_stop_date` equal to the scenario start,
hour 0 (the start itself, not strictly after the cutover) still carries the
unreduced pre-cutover pipeline value, which differs from the reduced value
at the default inputs. -/
theorem pipe_first_hour_unreduced :
    pipeImpVal importStopAtStart 0
      = tsConst * (importStopAtStart.total_import_russia + nonRussPipe importStopAtStart) ∧
    pipeImpVal importStopAtStart 0
      ≠ tsConst * (importStopAtStart.russ_share * importStopAtStart.total_import_russia
          + nonRussPipe importStopAtStart) := by
  constructor
  · simp [pipeImpVal]
  · norm_num [pipeImpVal, nonRussPipe, tsConst, importStopAtStart, sampleInputs,
      lng_base_import, periods_per_year]

/-- C6 (amended): if `import_stop_date` equals the scenario start, every hour
t ≥ 1 of the pipeline import series carries the reduced post-cutover value
russ_share × total_import_russia + non-Russian pipeline and production,
times 1/8760; hour 0 alone keeps the pre-cutover value. -/
theorem import_stop_at_start (I : ScenarioInputs) (h : I.import_stop_hour = 0) :
    (∀ t, 1 ≤ t →
      pipeImpVal I t = tsConst * (I.russ_share * I.total_import_russia + nonRussPipe I)) ∧
    pipeImpVal I 0 = tsConst * (I.total_import_russia + nonRussPipe I) := by
  constructor
  · intro t ht
    have hc : I.import_stop_hour < t := by omega
    simp [pipeImpVal, hc]
  · simp [pipeImpVal]

/-- Witness for `import_stop_at_start` at hour 1. -/
theorem import_stop_at_start_witness :
    importStopAtStart.import_stop_hour = 0 ∧
    pipeImpVal importStopAtStart 1
      = tsConst * (importStopAtStart.russ_share * importStopAtStart.total_import_russia
          + nonRussPipe importStopAtStart) :=
  ⟨rfl, (import_stop_at_start importStopAtStart rfl).1 1 (by norm_num)⟩

/-- C10: no range validation is performed on the reduction fractions: with a
reduction fraction above 1, a positive annual total and a positive shape
value, every hour strictly after the cutover has a strictly negative
domestic demand value. -/
theorem reduction_fraction_unchecked (I : ScenarioInputs) (t : ℕ)
    (hred : 1 < I.red_dom_dem) (htot : 0 < I.total_domestic_demand)
    (hshape : 0 < tsVol I.ts_vol_raw t) (hcut : I.demand_reduction_hour < t) :
    domDemVal I t < 0 := by
  have hbase : 0 < domDemBase I t := mul_pos hshape htot
  have hneg : (1 : ℚ) - I.red_dom_dem < 0 := by linarith
  rw [domDemVal, if_pos hcut, red_func]
  exact mul_neg_of_pos_of_neg hbase hneg

/-- Witness for `reduction_fraction_unchecked` at reduction fraction 2. -/
theorem reduction_fraction_unchecked_witness :
    1 < overReducedInputs.red_dom_dem ∧ domDemVal overReducedInputs 1 < 0 := by
  refine ⟨by norm_num [overReducedInputs, sampleInputs], ?_⟩
  refine reduction_fraction_unchecked overReducedInputs 1
    (by norm_num [overReducedInputs, sampleInputs])
    (by norm_num [overReducedInputs, sampleInputs]) ?_
    (by norm_num [overReducedInputs, sampleInputs])
  have hval : tsVol (List.replicate 8760 (1 : ℚ)) 1 = 1 := by
    rw [tsVol, ts_vol_ext, List.getD_eq_getElem?_getD,
      List.getElem?_append_left (by norm_num),
      List.getElem?_replicate_of_lt (by norm_num)]
    rfl
  rw [show overReducedInputs.ts_vol_raw = List.replicate 8760 (1 : ℚ) from rfl, hval]
  norm_num

/-- C2 fails as stated: at the horizon's last non-terminal hour
H − 1 = 13139 the state-transition constraint is present, not skipped
(`Constr_Soc_rule` only skips at `t = timeSteps[-1]`). -/
theorem soc_rule_present_at_last_hour :
    (Constr_Soc_rule zeroAssign (terminalStep - 1)).isSome = true := by
  rw [Constr_Soc_rule, if_pos (by decide : terminalStep - 1 < terminalStep)]
  rfl

/-- C2 (amended): the model contains the state-of-charge balance equality
Soc[t+1] − SocSlack[t+1] = Soc[t] − domDemServed[t] − elecDemServed[t] −
indDemServed[t] − ghdDemServed[t] + pipeServed[t] + lngServed[t] −
expAndOtherServed[t] exactly for the indices t in 0..H−1 (H = 13140 the
terminal index), and the constraint is skipped only at the terminal index
itself. -/
theorem soc_balance_constraint_range (a : Assignment) (t : ℕ) :
    (t < terminalStep →
      Constr_Soc_rule a t
        = some (a.Soc (t + 1) - a.Soc_slack (t + 1)
            = a.Soc t - a.domDemServed t - a.elecDemServed t - a.indDemServed t
              - a.ghdDemServed t + a.pipeServed t + a.lngServed t
              - a.expAndOtherServed t)) ∧
    (terminalStep ≤ t → Constr_Soc_rule a t = none) := by
  constructor
  · intro h
    rw [Constr_Soc_rule, if_pos h]
  · intro h
    rw [Constr_Soc_rule, if_neg (by omega)]

/-- Witness for `soc_balance_constraint_range`: the constraint exists at
t = 0 and is absent at the terminal index. -/
theorem soc_balance_constraint_range_witness :
    (Constr_Soc_rule zeroAssign 0).isSome = true ∧
    Constr_Soc_rule zeroAssign terminalStep = none := by
  constructor
  · rw [(soc_balance_constraint_range zeroAssign 0).1 (by decide)]
    rfl
  · exact (soc_balance_constraint_range zeroAssign terminalStep).2 le_rfl

theorem indicator_forced_one (S D x : ℚ) (hx : isBinary x) (hrule : S ≤ D * x)
    (hS : 0 < S) : x = 1 := by
  rcases hx with h0 | h1
  · rw [h0, mul_zero] at hrule
    linarith
  · exact h1

/-- C3: for each of the five demand streams, the indicator constraint
Σ shortfall ≤ Σ demand × isUnserved (summed over non-terminal hours) forces
the binary to 1 in every feasible assignment whose total shortfall is
strictly positive, while an assignment with zero shortfall and the
indicator set to 1 still satisfies the constraint (the indicator is never
forced to 0). -/
theorem unserved_indicator_semantics (I : ScenarioInputs) (a : Assignment) :
    (isBinary a.domDemIsUnserved → Constr_DomDemIsUnserved_rule I a →
      0 < (∑ t in Finset.range number_periods, (domDemVal I t - a.domDemServed t)) →
      a.domDemIsUnserved = 1) ∧
    ((∀ t ∈ Finset.range number_periods, 0 ≤ domDemVal I t) →
      (∑ t in Finset.range number_periods, (domDemVal I t - a.domDemServed t)) = 0 →
      Constr_DomDemIsUnserved_rule I { a with domDemIsUnserved := 1 }) ∧
    (isBinary a.ghdDemIsUnserved → Constr_GhdDemIsUnserved_rule I a →
      0 < (∑ t in Finset.range number_periods, (ghdDemVal I t - a.ghdDemServed t)) →
      a.ghdDemIsUnserved = 1) ∧
    ((∀ t ∈ Finset.range number_periods, 0 ≤ ghdDemVal I t) →
      (∑ t in Finset.range number_periods, (ghdDemVal I t - a.ghdDemServed t)) = 0 →
      Constr_GhdDemIsUnserved_rule I { a with ghdDemIsUnserved := 1 }) ∧
    (isBinary a.elecDemIsUnserved → Constr_ElecDemIsUnserved_rule I a →
      0 < (∑ t in Finset.range number_periods, (elecDemVal I t - a.elecDemServed t)) →
      a.elecDemIsUnserved = 1) ∧
    ((∀ t ∈ Finset.range number_periods, 0 ≤ elecDemVal I t) →
      (∑ t in Finset.range number_periods, (elecDemVal I t - a.elecDemServed t)) = 0 →
      Constr_ElecDemIsUnserved_rule I { a with elecDemIsUnserved := 1 }) ∧
    (isBinary a.indDemIsUnserved → Constr_IndDemIsUnserved_rule I a →
      0 < (∑ t in Finset.range number_periods, (indDemVal I t - a.indDemServed t)) →
      a.indDemIsUnserved = 1) ∧
    ((∀ t ∈ Finset.range number_periods, 0 ≤ indDemVal I t) →
      (∑ t in Finset.range number_periods, (indDemVal I t - a.indDemServed t)) = 0 →
      Constr_IndDemIsUnserved_rule I { a with indDemIsUnserved := 1 }) ∧
    (isBinary a.expAndOtherIsUnserved → Constr_ExpAndOtherIsUnserved_rule I a →
      0 < (∑ t in Finset.range number_periods,
        (expAndOtherVal I t - a.expAndOtherServed t)) →
      a.expAndOtherIsUnserved = 1) ∧
    ((∀ t ∈ Finset.range number_periods, 0 ≤ expAndOtherVal I t) →
      (∑ t in Finset.range number_periods,
        (expAndOtherVal I t - a.expAndOtherServed t)) = 0 →
      Constr_ExpAndOtherIsUnserved_rule I { a with expAndOtherIsUnserved := 1 }) := by
  refine ⟨?_, ?_, ?_, ?_, ?_, ?_, ?_, ?_, ?_, ?_⟩ <;>
    first
    | exact fun hx hrule hS => indicator_forced_one _ _ _ hx hrule hS
    | exact fun hpos hzero => by
        show _ ≤ _ * (1 : ℚ)
        rw [hzero, mul_one]
        exact Finset.sum_nonneg hpos

/-- Witness for `unserved_indicator_semantics`: a unit ghd demand stream with
nothing served forces the ghd indicator to 1, and serving the demand exactly
leaves the indicator-1 assignment feasible. -/
theorem unserved_indicator_semantics_witness :
    (0 < (∑ t in Finset.range number_periods,
        (ghdDemVal ghdUnitInputs t - unservedAssign.ghdDemServed t))) ∧
    unservedAssign.ghdDemIsUnserved = 1 ∧
    Constr_GhdDemIsUnserved_rule ghdUnitInputs
      { servedAssign with ghdDemIsUnserved := 1 } := by
  have hval : ∀ t, ghdDemVal ghdUnitInputs t = 1 := by
    intro t
    simp only [ghdDemVal, ghdDemBase, red_func]
    norm_num [ghdUnitInputs, sampleInputs, tsConst, periods_per_year]
  have hD : (∑ t in Finset.range number_periods, ghdDemVal ghdUnitInputs t)
      = 13140 := by
    rw [Finset.sum_congr rfl (fun t _ => hval t), Finset.sum_const,
      Finset.card_range]
    norm_num [number_periods]
  have hS : (∑ t in Finset.range number_periods,
      (ghdDemVal ghdUnitInputs t - unservedAssign.ghdDemServed t)) = 13140 := by
    have hterm : ∀ t ∈ Finset.range number_periods,
        ghdDemVal ghdUnitInputs t - unservedAssign.ghdDemServed t = 1 := by
      intro t _
      rw [hval]
      norm_num [unservedAssign, zeroAssign]
    rw [Finset.sum_congr rfl hterm, Finset.sum_const, Finset.card_range]
    norm_num [number_periods]
  refine ⟨by rw [hS]; norm_num, ?_, ?_⟩
  · apply (unserved_indicator_semantics ghdUnitInputs unservedAssign).2.2.1
    · exact Or.inr rfl
    · show _ ≤ _ * unservedAssign.ghdDemIsUnserved
      rw [hS, hD]
      show (13140 : ℚ) ≤ 13140 * 1
      norm_num
    · rw [hS]
      norm_num
  · apply (unserved_indicator_semantics ghdUnitInputs servedAssign).2.2.2.1
    · intro t _
      rw [hval]
      norm_num
    · have hterm : ∀ t ∈ Finset.range number_periods,
          ghdDemVal ghdUnitInputs t - servedAssign.ghdDemServed t = 0 := by
        intro t _
        rw [hval]
        norm_num [servedAssign, zeroAssign]
      rw [Finset.sum_congr rfl hterm, Finset.sum_const, smul_zero]

/-- C4: the objective equals −0.5/13140 × Σ_t Soc[t] / 1100, plus the
discounted slack Σ fac^t SocSlack[t] with weight 1, plus the discounted
shortfalls weighted 1.0 (exports/other), 2.5 (domestic), 2.5 (ghd),
2.0 (electricity), 1.5 (industry), all applied as fac^t (in the source
fac = (1/1.06)^(1/8760)); the five IsUnserved binaries and NegOffset carry
coefficient 0, so replacing them by arbitrary values leaves the objective
unchanged. -/
theorem objective_form (I : ScenarioInputs) (fac : ℚ) (a : Assignment)
    (b0 b1 b2 b3 b4 b5 : ℚ) :
    Objective_rule I fac
      { a with
        NegOffset := b0, expAndOtherIsUnserved := b1,
        domDemIsUnserved := b2, ghdDemIsUnserved := b3,
        elecDemIsUnserved := b4, indDemIsUnserved := b5 }
      = Objective_stated I fac a := by
  simp only [Objective_rule, Objective_stated]
  ring

theorem flatMap_replicate_length (l : List StorageRow) :
    (l.flatMap (fun r => List.replicate 24 r.gasInStorage)).length
      = 24 * l.length := by
  induction l with
  | nil => rfl
  | cons r rs ih =>
    rw [List.flatMap_cons, List.length_append, List.length_replicate, ih,
      List.length_cons]
    ring

theorem flatMap_replicate_getD (l : List StorageRow) :
    ∀ i k, i < l.length → k < 24 →
      (l.flatMap (fun r => List.replicate 24 r.gasInStorage)).getD (24 * i + k) 0
        = (l.getD i ⟨"", 0⟩).gasInStorage := by
  induction l with
  | nil =>
    intro i k hi _
    exact absurd hi (by simp)
  | cons r rs ih =>
    intro i k hi hk
    rw [List.flatMap_cons]
    cases i with
    | zero =>
      have hidx : 24 * 0 + k = k := by omega
      rw [hidx, List.getD_eq_getElem?_getD,
        List.getElem?_append_left (by rw [List.length_replicate]; exact hk),
        List.getElem?_replicate_of_lt hk]
      rfl
    | succ j =>
      have hlen : (List.replicate 24 r.gasInStorage).length = 24 := by
        rw [List.length_replicate]
      rw [List.getD_eq_getElem?_getD,
        List.getElem?_append_right (by rw [hlen]; omega), hlen]
      have harith : 24 * (j + 1) + k - 24 = 24 * j + k := by omega
      rw [harith, ← List.getD_eq_getElem?_getD]
      have htail : (r :: rs).getD (j + 1) ⟨"", 0⟩ = rs.getD j ⟨"", 0⟩ := rfl
      rw [htail]
      exact ih j k (by simpa using hi) hk

/-- C8 fails as stated: on a source table with no rows matching 2022 the
loader does not raise — it returns the capacity with an empty anchor series
— while the behaviour the specification describes
(`get_storage_capacity_stated`) is an error. -/
theorem storage_loader_no_failure :
    get_storage_capacity [⟨"2021-05-01", 500⟩] = (1100, []) ∧
    get_storage_capacity_stated [⟨"2021-05-01", 500⟩] = none := by
  constructor
  · rfl
  · rfl

/-- C8 (amended): the loader never fails: it always returns the fixed
capacity 1100 TWh; when no rows match 2022 the anchor series is empty, and
otherwise the anchor repeats each matching daily state-of-charge value 24
times in chronological order (position 24·i+k holds the i-th sorted daily
value). -/
theorem storage_loader_behavior (df : List StorageRow) :
    (get_storage_capacity df).1 = storCap ∧
    ((df.filter (fun r => strContains2022 r.gasDayStartedOn)).isEmpty = true →
      (get_storage_capacity df).2 = []) ∧
    (get_storage_capacity df).2.length = 24 * (sorted2022 df).length ∧
    (∀ i k, i < (sorted2022 df).length → k < 24 →
      (get_storage_capacity df).2.getD (24 * i + k) 0
        = ((sorted2022 df).getD i ⟨"", 0⟩).gasInStorage) := by
  refine ⟨rfl, ?_, ?_, ?_⟩
  · intro h
    have hnil : sorted2022 df = [] := by
      rw [sorted2022, List.isEmpty_eq_true.mp h]
      rfl
    show (sorted2022 df).flatMap (fun r => List.replicate 24 r.gasInStorage) = []
    rw [hnil]
    rfl
  · exact flatMap_replicate_length (sorted2022 df)
  · intro i k hi hk
    exact flatMap_replicate_getD (sorted2022 df) i k hi hk

/-- Witness for `storage_loader_behavior` on a two-row 2022 table given out
of order: hour 27 of the anchor carries the second sorted daily value. -/
theorem storage_loader_behavior_witness :
    1 < (sorted2022 storageTable).length ∧
    (get_storage_capacity storageTable).2.getD (24 * 1 + 3) 0
      = ((sorted2022 storageTable).getD 1 ⟨"", 0⟩).gasInStorage := by
  refine ⟨by decide, ?_⟩
  exact (storage_loader_behavior storageTable).2.2.2 1 3 (by decide) (by decide)

/-- C9 fails as stated: `use_soc_slack` is an input parameter of
`run_scenario` but the input echo table contains no entry for it. -/
theorem echo_missing_soc_slack :
    "use_soc_slack" ∈ run_scenario_param_names ∧
    "use_soc_slack" ∉ input_data_keys := by
  decide

/-- C9 (amended): the echo table has an entry for every input parameter of
`run_scenario` except the boolean storage-slack toggle `use_soc_slack`,
plus the two derived constants `lng_base_import` and `storCap`. -/
theorem echo_contents :
    (∀ k ∈ run_scenario_param_names, k ≠ "use_soc_slack" → k ∈ input_data_keys) ∧
    "lng_base_import" ∈ input_data_keys ∧
    "storCap" ∈ input_data_keys ∧
    "use_soc_slack" ∉ input_data_keys := by
  decide

/-- Witness for `echo_contents` at the parameter `russ_share`. -/
theorem echo_contents_witness :
    "russ_share" ∈ run_scenario_param_names ∧ "russ_share" ∈ input_data_keys :=
  ⟨by decide, echo_contents.1 "russ_share" (by decide) (by decide)⟩

end EUEnergy
